import Mathlib

/-!
Verification of the NPC Society protocol example daemon
(`examples/rust/src/main.rs`) — the directive–response correlation core.

The Rust handler `ExampleNpcSocietyService::handle_client_message` is embedded
as a pure Lean function from a `ClientMessage` and the process-wide identifier
counter to an `Option` of (outbound messages, new counter).  `none` models a
panic; enqueueing on the tokio mpsc channel is modelled as appending to the
returned list (the channel delivers in enqueue order).  Rust `u64` arithmetic
is `Nat` with explicit `% 2^64`; Rust `f64` is modelled by `Rat` (the handler
only copies, adds the exact constant 5.0, and truncates coordinates, so no
rounding behaviour is observable in the verified properties).
-/

set_option maxRecDepth 8192

namespace NpcSociety

/-- Rust `f64` fields, modelled by rationals. -/
abbrev F64 := Rat

/-- Proto `Position` (double coordinates plus orientation). -/
structure Position where
  world : String
  x : F64
  y : F64
  z : F64
  yaw : F64
  pitch : F64
deriving DecidableEq, Repr

/-- Proto `BlockPosition` (integer block coordinates). -/
structure BlockPosition where
  world : String
  x : Int
  y : Int
  z : Int
deriving DecidableEq, Repr

/-- Truncation toward zero, the rounding Rust `as i32` applies to an `f64`. -/
def truncF64 (q : Rat) : Int :=
  if 0 ≤ q then q.floor else q.ceil

/-- Saturation to the `i32` range, part of Rust `as i32` cast semantics. -/
def i32Saturate (n : Int) : Int :=
  max (-(2 ^ 31)) (min (2 ^ 31 - 1) n)

/-- Rust `f64 as i32`: truncate toward zero, saturating at the `i32` bounds. -/
def f64AsI32 (q : Rat) : Int :=
  i32Saturate (truncF64 q)

/-- Proto `Hello` handshake message (v1.1+ fields). -/
structure Hello where
  plugin_version : String
  protocol_version : String
  server_id : String
  minecraft_version : String
  voice_available : Bool
  server_name : String
  daemon_mode : String
deriving DecidableEq, Repr

/-- One NPC entry of a `WorldTick` (only `npc_id` and `position` are read). -/
structure Npc where
  npc_id : String
  position : Option Position
deriving DecidableEq, Repr

/-- Proto `WorldTick`. `nearby_players` is only read for its length (logging). -/
structure WorldTick where
  server_tick : Nat
  npcs : List Npc
  nearby_players : List String
deriving DecidableEq, Repr

/-- Proto `ChatObservation`. -/
structure ChatObservation where
  npc_id : String
  player_name : String
  message : String
deriving DecidableEq, Repr

/-- Proto `BlockMatch`: a scan hit. -/
structure BlockMatch where
  position : Option BlockPosition
  block_type : String
deriving DecidableEq, Repr

/-- Proto `ScanBlocksResult`. -/
structure ScanBlocksResult where
  «matches» : List BlockMatch
deriving DecidableEq, Repr

/-- An item stack. Modelled from the spec: the proto schema is not under
`src`; the handler only reads the length/emptiness of item lists. -/
structure ItemStack where
  item_type : String
  count : Nat
deriving DecidableEq, Repr

/-- Proto `BreakBlockResult`. -/
structure BreakBlockResult where
  items_dropped : List ItemStack
deriving DecidableEq, Repr

/-- Proto `DepositToChestResult`. -/
structure DepositToChestResult where
  deposited : List ItemStack
deriving DecidableEq, Repr

/-- Proto `MoveResult`. -/
structure MoveResult where
  reached_destination : Bool
deriving DecidableEq, Repr

/-- Proto `action_result.Result` payload union.  `OtherResult` stands for any
further schema variant; the Rust handler ignores them through its wildcard
match arm. -/
inductive ActionResultType where
  | ScanBlocksResult (r : ScanBlocksResult)
  | BreakBlockResult (r : BreakBlockResult)
  | DepositToChestResult (r : DepositToChestResult)
  | MoveResult (r : MoveResult)
  | OtherResult
deriving DecidableEq, Repr

/-- Proto `ActionResult`. -/
structure ActionResult where
  directive_id : String
  npc_id : String
  success : Bool
  error_message : String
  result : Option ActionResultType
deriving DecidableEq, Repr

/-- Proto `EventObservation` (only logged by the handler). -/
structure EventObservation where
  npc_id : String
  event_type : Int
deriving DecidableEq, Repr

/-- Proto `VoicePcmFrame` (only logged by the handler). -/
structure VoicePcmFrame where
  npc_id : String
  player_uuid : String
  pcm_data : List Nat
  sequence : Nat
  timestamp_ms : Nat
  sample_rate_hz : Nat
  format : Int
deriving DecidableEq, Repr

/-- Proto `client_message.Message` union. -/
inductive ClientMsg where
  | Hello (h : Hello)
  | WorldTick (t : WorldTick)
  | ChatObservation (c : ChatObservation)
  | ActionResult (r : ActionResult)
  | EventObservation (e : EventObservation)
  | VoicePcmFrame (f : VoicePcmFrame)
deriving DecidableEq, Repr

/-- Proto `ClientMessage`: the oneof field is optional on the wire. -/
structure ClientMessage where
  message : Option ClientMsg
deriving DecidableEq, Repr

/-- Proto `MoveAction`. -/
structure MoveAction where
  target : Option Position
  speed : F64
  pathfind : Bool
deriving DecidableEq, Repr

/-- Proto `BreakBlockAction`. -/
structure BreakBlockAction where
  position : Option BlockPosition
deriving DecidableEq, Repr

/-- Proto `ScanBlocksAction`. -/
structure ScanBlocksAction where
  center : Option BlockPosition
  radius : Int
  block_types : List String
  max_results : Int
deriving DecidableEq, Repr

/-- Proto `DepositToChestAction`. -/
structure DepositToChestAction where
  chest_position : Option BlockPosition
  item_types : List String
  max_items : Int
deriving DecidableEq, Repr

/-- Proto `action_directive.Action` union (the variants the example uses). -/
inductive Action where
  | Move (a : MoveAction)
  | BreakBlock (a : BreakBlockAction)
  | ScanBlocks (a : ScanBlocksAction)
  | DepositToChest (a : DepositToChestAction)
deriving DecidableEq, Repr

/-- Proto `ActionDirective`. -/
structure ActionDirective where
  directive_id : String
  npc_id : String
  priority : Int
  action : Option Action
deriving DecidableEq, Repr

/-- Proto `SpeakDirective` with the v1.1+ correlation fields. -/
structure SpeakDirective where
  npc_id : String
  text : String
  emotion : String
  duration_ms : Nat
  directive_id : String
  voice_id : String
  volume : F64
  stream_id : String
deriving DecidableEq, Repr

/-- Proto `AudioChunk` with the v1.1+ correlation field. -/
structure AudioChunk where
  npc_id : String
  stream_id : String
  pcm_data : List Nat
  sequence : Nat
  is_final : Bool
  directive_id : String
deriving DecidableEq, Repr

/-- Proto `server_message.Message` union. -/
inductive ServerMsg where
  | ActionDirective (d : ActionDirective)
  | SpeakDirective (s : SpeakDirective)
  | AudioChunk (a : AudioChunk)
deriving DecidableEq, Repr

/-- Proto `ServerMessage`. -/
structure ServerMessage where
  message : Option ServerMsg
deriving DecidableEq, Repr

/-! ### Identifier generation

`DIRECTIVE_COUNTER` is an `AtomicU64` initialised to 1; `fetch_add(1)` returns
the previous value and stores the incremented value, wrapping on overflow.
The counter state is a `Nat` kept below `2^64`. -/

/-- `2^64`, the modulus of the wrapping `u64` counter. -/
def U64SIZE : Nat := 2 ^ 64

/-- The initial value of `DIRECTIVE_COUNTER`. -/
def COUNTER_INIT : Nat := 1

/-- `AtomicU64::fetch_add(1, SeqCst)`: returns the fetched (old) value and the
wrapped successor that is stored back. -/
def fetchAdd (s : Nat) : Nat × Nat :=
  (s, (s + 1) % U64SIZE)

/-- Little-endian decimal digits of `n`, with a structural fuel argument so
that the definition reduces in the kernel.  `decDigitsAux f n` is the digit
list of `n` whenever `n ≤ f`. -/
def decDigitsAux : Nat → Nat → List Nat
  | _, 0 => []
  | 0, _ + 1 => []
  | f + 1, n + 1 => (n + 1) % 10 :: decDigitsAux f ((n + 1) / 10)

/-- Little-endian decimal digits of `n` (empty for 0). -/
def decDigits (n : Nat) : List Nat :=
  decDigitsAux n n

/-- The decimal rendering Rust's `Display` formatter applies to a `u64`
(what `format!` interpolates for the counter value). -/
def natToDecimalString (n : Nat) : String :=
  if n = 0 then "0" else String.mk (((decDigits n).map Nat.digitChar).reverse)

/-- `next_directive_id()`: formats `dir-{fetched}` and advances the counter. -/
def next_directive_id (s : Nat) : String × Nat :=
  let (v, s') := fetchAdd s
  ("dir-" ++ natToDecimalString v, s')

/-- `next_stream_id()`: formats `stream-{fetched}` on the same shared counter. -/
def next_stream_id (s : Nat) : String × Nat :=
  let (v, s') := fetchAdd s
  ("stream-" ++ natToDecimalString v, s')

/-! ### The message handler

`ExampleNpcSocietyService::handle_client_message`, embedded as a pure
function.  The result is `none` exactly when the Rust code would panic (the
only candidate sites are the `tick.npcs[0]` index expressions, modelled with
`List.get?`); otherwise it is the ordered list of `ServerMessage`s enqueued on
the outbound channel together with the new counter state. -/

/-- The `WorldTick` scan block: every 100 ticks, if an NPC exists, consume a
directive id and — when the NPC has a position — send a `ScanBlocks`
directive for diamond ore around it. -/
def scanPhase (tick : WorldTick) (s : Nat) : Option (List ServerMessage × Nat) :=
  if tick.server_tick % 100 = 0 ∧ tick.npcs ≠ [] then
    match tick.npcs.get? 0 with
    | none => none
    | some npc =>
      let (directive_id, s1) := next_directive_id s
      let center := npc.position.map (fun p =>
        ({ world := p.world, x := f64AsI32 p.x, y := f64AsI32 p.y,
           z := f64AsI32 p.z } : BlockPosition))
      match center with
      | some c =>
        let scan_action : ActionDirective :=
          { directive_id := directive_id, npc_id := npc.npc_id, priority := 5,
            action := some (.ScanBlocks
              { center := some c, radius := 16,
                block_types := ["minecraft:diamond_ore",
                                "minecraft:deepslate_diamond_ore"],
                max_results := 10 }) }
        some ([{ message := some (.ActionDirective scan_action) }], s1)
      | none => some ([], s1)
  else some ([], s)

/-- The `WorldTick` move block: every 50 ticks, if an NPC exists, send a
`Move` directive; absent position fields fall back to the defaults
`(0.0, 64.0, 0.0)`. -/
def movePhase (tick : WorldTick) (s : Nat) : Option (List ServerMessage × Nat) :=
  if tick.server_tick % 50 = 0 ∧ tick.npcs ≠ [] then
    match tick.npcs.get? 0 with
    | none => none
    | some npc =>
      let (directive_id, s1) := next_directive_id s
      let directive : ActionDirective :=
        { directive_id := directive_id, npc_id := npc.npc_id, priority := 1,
          action := some (.Move
            { target := some
                { world := "world",
                  x := (npc.position.map (fun p => p.x + 5)).getD 0,
                  y := (npc.position.map (fun p => p.y)).getD 64,
                  z := (npc.position.map (fun p => p.z)).getD 0,
                  yaw := 0, pitch := 0 },
              speed := 0.5, pathfind := true }) }
      some ([{ message := some (.ActionDirective directive) }], s1)
  else some ([], s)

/-- The `ChatObservation` branch: one `SpeakDirective` with fresh directive and
stream ids, followed by three correlated `AudioChunk`s. -/
def chatResponse (chat : ChatObservation) (s : Nat) : List ServerMessage × Nat :=
  let (directive_id, s1) := next_directive_id s
  let (stream_id, s2) := next_stream_id s1
  let speak : SpeakDirective :=
    { npc_id := chat.npc_id,
      text := "Hello, " ++ chat.player_name ++ "! I\x27ll help you find diamonds.",
      emotion := "helpful", duration_ms := 3000,
      directive_id := directive_id, voice_id := "en-US-Neural2-D",
      volume := 0.8, stream_id := stream_id }
  let chunks : List ServerMessage := (List.range 3).map (fun seq =>
    { message := some (.AudioChunk
        { npc_id := chat.npc_id, stream_id := stream_id,
          pcm_data := List.replicate 960 0, sequence := seq,
          is_final := seq == 2, directive_id := directive_id }) })
  ({ message := some (.SpeakDirective speak) } :: chunks, s2)

/-- The `ActionResult` branch: on success, chain the mining workflow
(scan result → break first match; break result with drops → deposit);
on failure, log only. -/
def actionResultResponse (result : ActionResult) (s : Nat) :
    List ServerMessage × Nat :=
  if result.success then
    match result.result with
    | some (.ScanBlocksResult scan) =>
      match scan.«matches».head? with
      | some first_match =>
        let (directive_id, s1) := next_directive_id s
        let break_action : ActionDirective :=
          { directive_id := directive_id, npc_id := result.npc_id,
            priority := 10,
            action := some (.BreakBlock { position := first_match.position }) }
        ([{ message := some (.ActionDirective break_action) }], s1)
      | none => ([], s)
    | some (.BreakBlockResult break_result) =>
      if break_result.items_dropped ≠ [] then
        let (directive_id, s1) := next_directive_id s
        let deposit_action : ActionDirective :=
          { directive_id := directive_id, npc_id := result.npc_id,
            priority := 5,
            action := some (.DepositToChest
              { chest_position := some
                  { world := "world", x := 100, y := 64, z := -200 },
                item_types := ["minecraft:diamond"], max_items := 64 }) }
        ([{ message := some (.ActionDirective deposit_action) }], s1)
      else ([], s)
    | _ => ([], s)
  else ([], s)

/-- `handle_client_message`: dispatch on the message variant.  Branches that
only log (`Hello`, `EventObservation`, `VoicePcmFrame`, empty message) emit
nothing and leave the counter unchanged. -/
def handle_client_message (msg : ClientMessage) (s : Nat) :
    Option (List ServerMessage × Nat) :=
  match msg.message with
  | some (.Hello _) => some ([], s)
  | some (.WorldTick tick) =>
    match scanPhase tick s with
    | none => none
    | some (out1, s1) =>
      match movePhase tick s1 with
      | none => none
      | some (out2, s2) => some (out1 ++ out2, s2)
  | some (.ChatObservation chat) => some (chatResponse chat s)
  | some (.ActionResult result) => some (actionResultResponse result s)
  | some (.EventObservation _) => some ([], s)
  | some (.VoicePcmFrame _) => some ([], s)
  | none => some ([], s)

/-! ### Directive Tracker

Modelled from the spec: the Directive Tracker (spec §4.4) and the
registration step of §4.3 are not implemented in the code under `src` — the
spec notes (§9) that the reference material omits the tracking structure it
implicitly needs.  The definitions below follow the spec text. -/

/-- Modelled from the spec: a tracked entry `{directive, sent_at}` (§3). -/
structure PendingDirective where
  directive : ActionDirective
  sent_at : Nat
deriving DecidableEq, Repr

/-- Modelled from the spec: the tracker is a finite map from directive id to
its `PendingDirective`, represented as an association list (at most one entry
per id, enforced by `Tracker.register`). -/
abbrev Tracker := List (String × PendingDirective)

/-- Modelled from the spec: the outcome of resolving a result (§4.4). -/
inductive ResolveOutcome where
  | Matched (d : PendingDirective) (r : ActionResult)
  | Orphaned (r : ActionResult)
deriving DecidableEq, Repr

/-- Modelled from the spec: `register(directive)` inserts a PendingDirective
and fails (reports, fatal to that directive only) on an id collision (§4.4). -/
def Tracker.register (t : Tracker) (id : String) (p : PendingDirective) :
    Option Tracker :=
  if (t.lookup id).isSome then none else some ((id, p) :: t)

/-- Modelled from the spec: `resolve(result)` looks up `result.directive_id`;
if found it removes the PendingDirective and returns `Matched`, otherwise it
returns `Orphaned` and leaves the pending set untouched (§4.4). -/
def Tracker.resolve (t : Tracker) (r : ActionResult) :
    ResolveOutcome × Tracker :=
  match t.lookup r.directive_id with
  | some p => (.Matched p r, t.eraseP (fun e => e.1 == r.directive_id))
  | none => (.Orphaned r, t)

/-! ### Session dispatch with registration

Modelled from the spec: §4.3 requires every directive returned to Transport
to have been registered with the Directive Tracker before it is enqueued.
The session step below reifies the handler's outbound traffic as an ordered
effect trace in which each directive-carrying message is preceded by the
registration of its directive id. -/

/-- One observable effect of the session: registering a directive id with the
tracker, or enqueueing a message on the outbound channel. -/
inductive Effect where
  | register (id : String)
  | enqueue (m : ServerMessage)
deriving DecidableEq, Repr

/-- The directive id carried by an outbound message, when the message is a
directive (`ActionDirective` or Speak-class); audio chunks are not
directives. -/
def directiveId? (m : ServerMessage) : Option String :=
  match m.message with
  | some (.ActionDirective d) => some d.directive_id
  | some (.SpeakDirective sp) => some sp.directive_id
  | _ => none

/-- Modelled from the spec: emit a batch of outbound messages, registering
each directive with the tracker immediately before its enqueue (§4.3). -/
def emitWithRegistration : List ServerMessage → List Effect
  | [] => []
  | m :: rest =>
    (match directiveId? m with
     | some id => [.register id, .enqueue m]
     | none => [.enqueue m]) ++ emitWithRegistration rest

/-- Modelled from the spec: one inbound-message step of the Connection
Session — run the handler, then hand its outbound batch to Transport with
the §4.3 register-before-enqueue discipline. -/
def sessionStep (msg : ClientMessage) (s : Nat) :
    Option (List Effect × Nat) :=
  (handle_client_message msg s).map
    (fun out => (emitWithRegistration out.1, out.2))

/-! ### Sequences of identifier-generator calls -/

/-- Which generator a caller invokes. -/
inductive IdKind where
  | directive
  | stream
deriving DecidableEq, Repr

/-- `next_id(kind)`: the two generators share the single process-wide
counter. -/
def next_id (k : IdKind) (s : Nat) : String × Nat :=
  match k with
  | .directive => next_directive_id s
  | .stream => next_stream_id s

/-- Run a sequence of generator calls, returning the ids in call order and
the final counter state. -/
def runCalls (ks : List IdKind) (s : Nat) : List String × Nat :=
  match ks with
  | [] => ([], s)
  | k :: ks' =>
    let (id, s1) := next_id k s
    let (ids, s2) := runCalls ks' s1
    (id :: ids, s2)

/-- The counter state after `n` generator calls starting from state `s`
(each call stores the wrapped successor). -/
def counterAfter (s : Nat) : Nat → Nat
  | 0 => s
  | n + 1 => (counterAfter s n + 1) % U64SIZE

/-! ### Decimal rendering: round trip and injectivity -/

/-- The numeric value of a little-endian decimal digit list. -/
def decVal (l : List Nat) : Nat :=
  l.foldr (fun d acc => d + 10 * acc) 0

lemma decVal_cons (d : Nat) (l : List Nat) : decVal (d :: l) = d + 10 * decVal l :=
  rfl

lemma decVal_decDigitsAux : ∀ f n, n ≤ f → decVal (decDigitsAux f n) = n := by
  intro f
  induction f with
  | zero =>
    intro n hn
    have hn0 : n = 0 := Nat.le_zero.mp hn
    subst hn0
    rfl
  | succ f ih =>
    intro n hn
    match n with
    | 0 => rfl
    | Nat.succ m =>
      have hdiv : (m + 1) / 10 ≤ f := by
        have h1 : (m + 1) / 10 < m + 1 :=
          Nat.div_lt_self (Nat.succ_pos m) (by norm_num)
        omega
      have hstep :
          decDigitsAux (f + 1) (m + 1)
            = (m + 1) % 10 :: decDigitsAux f ((m + 1) / 10) := rfl
      rw [hstep, decVal_cons, ih _ hdiv]
      omega

lemma decVal_decDigits (n : Nat) : decVal (decDigits n) = n :=
  decVal_decDigitsAux n n (Nat.le_refl n)

lemma decDigitsAux_lt_ten : ∀ f n, ∀ d ∈ decDigitsAux f n, d < 10 := by
  intro f
  induction f with
  | zero =>
    intro n d hd
    cases n <;> simp [decDigitsAux] at hd
  | succ f ih =>
    intro n d hd
    match n with
    | 0 => simp [decDigitsAux] at hd
    | Nat.succ m =>
      have hstep :
          decDigitsAux (f + 1) (m + 1)
            = (m + 1) % 10 :: decDigitsAux f ((m + 1) / 10) := rfl
      rw [hstep] at hd
      rcases List.mem_cons.mp hd with h | h
      · subst h
        exact Nat.mod_lt _ (by norm_num)
      · exact ih _ d h

/-- Inverse of `Nat.digitChar` on decimal digits. -/
def decodeDigitChar (c : Char) : Nat :=
  c.toNat - 48

/-- Decode the decimal value a rendered string denotes. -/
def strVal (s : String) : Nat :=
  decVal (s.data.reverse.map decodeDigitChar)

lemma strVal_natToDecimalString (n : Nat) : strVal (natToDecimalString n) = n := by
  unfold natToDecimalString
  by_cases h : n = 0
  · subst h
    rfl
  · rw [if_neg h]
    show decVal (((((decDigits n).map Nat.digitChar).reverse).reverse).map decodeDigitChar) = n
    rw [List.reverse_reverse, List.map_map]
    have hmap : (decDigits n).map (decodeDigitChar ∘ Nat.digitChar) = (decDigits n).map id := by
      apply List.map_congr_left
      intro d hd
      have hlt : d < 10 := decDigitsAux_lt_ten n n d hd
      interval_cases d <;> rfl
    rw [hmap, List.map_id, decVal_decDigits]

lemma natToDecimalString_injective : Function.Injective natToDecimalString := by
  intro a b h
  have hv := congrArg strVal h
  rwa [strVal_natToDecimalString, strVal_natToDecimalString] at hv

lemma append_left_cancel_str {p x y : String} (h : p ++ x = p ++ y) : x = y := by
  have hd := congrArg String.data h
  rw [String.data_append, String.data_append] at hd
  exact String.ext (List.append_cancel_left hd)

lemma dir_ne_stream (x y : String) : ("dir-" ++ x) ≠ ("stream-" ++ y) := by
  intro h
  have hd := congrArg String.data h
  rw [String.data_append, String.data_append] at hd
  have h1 : ("dir-" : String).data = ['d', 'i', 'r', '-'] := rfl
  have h2 : ("stream-" : String).data = ['s', 't', 'r', 'e', 'a', 'm', '-'] := rfl
  rw [h1, h2] at hd
  simp at hd

/-! ### Counter and call-sequence lemmas -/

/-- The id text the generator of each kind prepends to the counter value. -/
def kindStr : IdKind → String
  | .directive => "dir-"
  | .stream => "stream-"

lemma next_id_fst (k : IdKind) (s : Nat) :
    (next_id k s).1 = kindStr k ++ natToDecimalString s := by
  cases k <;> rfl

lemma next_id_snd (k : IdKind) (s : Nat) :
    (next_id k s).2 = (s + 1) % U64SIZE := by
  cases k <;> rfl

lemma U64SIZE_pos : 0 < U64SIZE := by decide

lemma counterAfter_eq (s : Nat) (hs : s < U64SIZE) :
    ∀ n, counterAfter s n = (s + n) % U64SIZE := by
  intro n
  induction n with
  | zero => simp [counterAfter, Nat.mod_eq_of_lt hs]
  | succ n ih =>
    show (counterAfter s n + 1) % U64SIZE = (s + (n + 1)) % U64SIZE
    rw [ih, Nat.mod_add_mod, Nat.add_assoc]

lemma mkId_inj (k k' : IdKind) (a b : Nat)
    (h : kindStr k ++ natToDecimalString a = kindStr k' ++ natToDecimalString b) :
    a = b := by
  cases k <;> cases k' <;> simp only [kindStr] at h
  · exact natToDecimalString_injective (append_left_cancel_str h)
  · exact absurd h (dir_ne_stream _ _)
  · exact absurd h.symm (dir_ne_stream _ _)
  · exact natToDecimalString_injective (append_left_cancel_str h)

lemma runCalls_cons (k : IdKind) (ks : List IdKind) (s : Nat) :
    runCalls (k :: ks) s =
      ((next_id k s).1 :: (runCalls ks (next_id k s).2).1,
       (runCalls ks (next_id k s).2).2) := rfl

lemma runCalls_fst_length : ∀ (ks : List IdKind) (s : Nat),
    ((runCalls ks s).1).length = ks.length := by
  intro ks
  induction ks with
  | nil => intro s; rfl
  | cons k ks ih =>
    intro s
    rw [runCalls_cons]
    simp [ih]

lemma runCalls_get? : ∀ (ks : List IdKind) (s : Nat), s < U64SIZE → ∀ n : Nat,
    ((runCalls ks s).1).get? n =
      (ks.get? n).map (fun k => kindStr k ++ natToDecimalString ((s + n) % U64SIZE)) := by
  intro ks
  induction ks with
  | nil => intro s _ n; rfl
  | cons k ks ih =>
    intro s hs n
    rw [runCalls_cons]
    cases n with
    | zero =>
      rw [List.get?_cons_zero, List.get?_cons_zero]
      simp only [Option.map_some']
      rw [next_id_fst, Nat.add_zero, Nat.mod_eq_of_lt hs]
    | succ n =>
      rw [List.get?_cons_succ, List.get?_cons_succ]
      have hs1 : (next_id k s).2 < U64SIZE := by
        rw [next_id_snd]
        exact Nat.mod_lt _ U64SIZE_pos
      rw [ih _ hs1 n, next_id_snd, Nat.mod_add_mod]
      have harith : s + 1 + n = s + (n + 1) := by omega
      rw [harith]

/-! ### Registration-before-enqueue and tracker lemmas -/

lemma emitWithRegistration_reg_before :
    ∀ (msgs : List ServerMessage) (i : Nat) (m : ServerMessage) (id : String),
      (emitWithRegistration msgs).get? i = some (.enqueue m) →
      directiveId? m = some id →
      ∃ j, j < i ∧ (emitWithRegistration msgs).get? j = some (.register id) := by
  intro msgs
  induction msgs with
  | nil =>
    intro i m id h _
    simp [emitWithRegistration] at h
  | cons m0 rest ih =>
    intro i m id h hid
    cases hd : directiveId? m0 with
    | none =>
      have hemit : emitWithRegistration (m0 :: rest)
          = .enqueue m0 :: emitWithRegistration rest := by
        simp [emitWithRegistration, hd]
      rw [hemit] at h
      cases i with
      | zero =>
        rw [List.get?_cons_zero] at h
        have hm : m0 = m := by
          injection h with h1
          injection h1
        rw [← hm] at hid
        rw [hd] at hid
        exact absurd hid (by simp)
      | succ i =>
        rw [List.get?_cons_succ] at h
        obtain ⟨j, hj, hjreg⟩ := ih i m id h hid
        refine ⟨j + 1, by omega, ?_⟩
        rw [hemit, List.get?_cons_succ]
        exact hjreg
    | some did =>
      have hemit : emitWithRegistration (m0 :: rest)
          = .register did :: .enqueue m0 :: emitWithRegistration rest := by
        simp [emitWithRegistration, hd]
      rw [hemit] at h
      cases i with
      | zero =>
        rw [List.get?_cons_zero] at h
        injection h with h1
        exact absurd h1 (by simp)
      | succ i =>
        cases i with
        | zero =>
          rw [List.get?_cons_succ, List.get?_cons_zero] at h
          have hm : m0 = m := by
            injection h with h1
            injection h1
          rw [← hm] at hid
          rw [hd] at hid
          have hids : did = id := by injection hid
          refine ⟨0, by omega, ?_⟩
          rw [hemit, List.get?_cons_zero, hids]
        | succ i =>
          rw [List.get?_cons_succ, List.get?_cons_succ] at h
          obtain ⟨j, hj, hjreg⟩ := ih i m id h hid
          refine ⟨j + 2, by omega, ?_⟩
          rw [hemit, List.get?_cons_succ, List.get?_cons_succ]
          exact hjreg

lemma tracker_lookup_split :
    ∀ (t : Tracker) (k : String) (p : PendingDirective),
      t.lookup k = some p →
      ∃ t1 t2, t = t1 ++ (k, p) :: t2 ∧ (∀ e ∈ t1, e.1 ≠ k) ∧
        t.eraseP (fun e => e.1 == k) = t1 ++ t2 := by
  intro t
  induction t with
  | nil =>
    intro k p h
    simp [List.lookup] at h
  | cons e rest ih =>
    intro k p h
    by_cases hk : k = e.1
    · have hlook : List.lookup k (e :: rest) = some e.2 := by
        rw [show e = (e.1, e.2) from rfl, List.lookup_cons]
        simp [hk]
      rw [hlook] at h
      have hp : e.2 = p := by injection h
      refine ⟨[], rest, ?_, by simp, ?_⟩
      · rw [show e = (e.1, e.2) from rfl]
        simp [hk, hp]
      · rw [List.eraseP_cons]
        have : (e.1 == k) = true := by simp [hk]
        simp [this]
    · have hlook : List.lookup k (e :: rest) = List.lookup k rest := by
        rw [show e = (e.1, e.2) from rfl, List.lookup_cons]
        have : (k == e.1) = false := by simp [hk]
        simp [this]
      rw [hlook] at h
      obtain ⟨t1, t2, heq, hne, herase⟩ := ih k p h
      refine ⟨e :: t1, t2, by rw [heq]; rfl, ?_, ?_⟩
      · intro x hx
        rcases List.mem_cons.mp hx with hx | hx
        · subst hx
          exact fun hc => hk hc.symm
        · exact hne x hx
      · rw [List.eraseP_cons]
        have : (e.1 == k) = false := by
          simp
          exact fun hc => hk hc.symm
        simp only [this, cond_false]
        rw [herase, List.cons_append]

/-! ### Handler totality lemmas -/

lemma scanPhase_isSome (tick : WorldTick) (s : Nat) :
    (scanPhase tick s).isSome = true := by
  unfold scanPhase
  split
  · next hcond =>
    obtain ⟨_, hne⟩ := hcond
    cases hnp : tick.npcs with
    | nil => exact absurd hnp hne
    | cons npc rest =>
      rw [List.get?_cons_zero]
      cases hp : npc.position <;> simp [hp]
  · rfl

lemma movePhase_isSome (tick : WorldTick) (s : Nat) :
    (movePhase tick s).isSome = true := by
  unfold movePhase
  split
  · next hcond =>
    obtain ⟨_, hne⟩ := hcond
    cases hnp : tick.npcs with
    | nil => exact absurd hnp hne
    | cons npc rest =>
      rw [List.get?_cons_zero]
      simp
  · rfl

/-! ### Claim theorems -/

/-- C7: for every `ActionResult` with `success = false`, the core emits no
directive and issues no automatic retry (the output batch is empty and the
counter is untouched); the failure is only surfaced by logging, leaving the
decision to re-issue to the external policy collaborator. -/
theorem c7_failure_emits_no_directive (r : ActionResult) (s : Nat)
    (h : r.success = false) :
    handle_client_message { message := some (.ActionResult r) } s = some ([], s) := by
  simp [handle_client_message, actionResultResponse, h]

/-- Witness for C7 at a concrete failed result. -/
theorem c7_failure_emits_no_directive_witness :
    handle_client_message
      { message := some (.ActionResult ⟨"dir-9", "npc", false, "boom", none⟩) } 5 =
      some ([], 5) :=
  c7_failure_emits_no_directive ⟨"dir-9", "npc", false, "boom", none⟩ 5 rfl

/-- C8: a `ClientMessage` whose `message` field is absent produces no outbound
message and no state change; it is only logged, and the handler returns
normally so the session keeps processing subsequent messages. -/
theorem c8_empty_message_is_noop (s : Nat) :
    handle_client_message { message := none } s = some ([], s) := rfl

/-- C2: a successful `ScanBlocksResult` with at least one match makes the core
emit exactly one `BreakBlock` directive, targeting the position of the first
match of the match array (never a later one); with an empty match array no
directive is emitted. -/
theorem c2_scan_result_breaks_first_match (r : ActionResult)
    (scan : ScanBlocksResult) (s : Nat)
    (hs : r.success = true) (hr : r.result = some (.ScanBlocksResult scan)) :
    (∀ m0 rest, scan.«matches» = m0 :: rest →
      handle_client_message { message := some (.ActionResult r) } s =
        some ([{ message := some (.ActionDirective
          { directive_id := (next_directive_id s).1, npc_id := r.npc_id,
            priority := 10,
            action := some (.BreakBlock { position := m0.position }) }) }],
          (next_directive_id s).2)) ∧
    (scan.«matches» = [] →
      handle_client_message { message := some (.ActionResult r) } s = some ([], s)) := by
  constructor
  · intro m0 rest hm
    simp [handle_client_message, actionResultResponse, hs, hr, hm]
  · intro hm
    simp [handle_client_message, actionResultResponse, hs, hr, hm]

/-- Witness for C2: two matches, the emitted `BreakBlock` targets the first. -/
theorem c2_scan_result_breaks_first_match_witness :
    handle_client_message
      { message := some (.ActionResult
        ⟨"dir-3", "miner", true, "", some (.ScanBlocksResult
          ⟨[⟨some ⟨"world", 10, 20, 30⟩, "minecraft:diamond_ore"⟩,
            ⟨some ⟨"world", 1, 2, 3⟩, "minecraft:deepslate_diamond_ore"⟩]⟩)⟩) } 7 =
      some ([{ message := some (.ActionDirective
        { directive_id := (next_directive_id 7).1, npc_id := "miner",
          priority := 10,
          action := some (.BreakBlock { position := some ⟨"world", 10, 20, 30⟩ }) }) }],
        (next_directive_id 7).2) :=
  (c2_scan_result_breaks_first_match _ _ 7 rfl rfl).1
    ⟨some ⟨"world", 10, 20, 30⟩, "minecraft:diamond_ore"⟩
    [⟨some ⟨"world", 1, 2, 3⟩, "minecraft:deepslate_diamond_ore"⟩] rfl

/-- C3: a successful `BreakBlockResult` with a non-empty dropped-items list
makes the core emit exactly one `DepositToChest` directive; with an empty
list no directive is emitted. -/
theorem c3_break_result_deposits (r : ActionResult) (br : BreakBlockResult)
    (s : Nat) (hs : r.success = true)
    (hr : r.result = some (.BreakBlockResult br)) :
    (br.items_dropped ≠ [] →
      handle_client_message { message := some (.ActionResult r) } s =
        some ([{ message := some (.ActionDirective
          { directive_id := (next_directive_id s).1, npc_id := r.npc_id,
            priority := 5,
            action := some (.DepositToChest
              { chest_position := some { world := "world", x := 100, y := 64, z := -200 },
                item_types := ["minecraft:diamond"], max_items := 64 }) }) }],
          (next_directive_id s).2)) ∧
    (br.items_dropped = [] →
      handle_client_message { message := some (.ActionResult r) } s = some ([], s)) := by
  constructor
  · intro hne
    simp [handle_client_message, actionResultResponse, hs, hr, hne]
  · intro hm
    simp [handle_client_message, actionResultResponse, hs, hr, hm]

/-- Witness for C3 at a concrete break result with one dropped item. -/
theorem c3_break_result_deposits_witness :
    handle_client_message
      { message := some (.ActionResult
        ⟨"dir-4", "miner", true, "", some (.BreakBlockResult
          ⟨[⟨"minecraft:diamond", 1⟩]⟩)⟩) } 9 =
      some ([{ message := some (.ActionDirective
        { directive_id := (next_directive_id 9).1, npc_id := "miner",
          priority := 5,
          action := some (.DepositToChest
            { chest_position := some { world := "world", x := 100, y := 64, z := -200 },
              item_types := ["minecraft:diamond"], max_items := 64 }) }) }],
        (next_directive_id 9).2) :=
  (c3_break_result_deposits _ _ 9 rfl rfl).1 (by simp)

/-- The chat branch output, materialised: one `SpeakDirective` message
followed by the three correlated `AudioChunk`s. -/
lemma chatResponse_eq (chat : ChatObservation) (s : Nat) :
    chatResponse chat s =
      ([{ message := some (.SpeakDirective
          { npc_id := chat.npc_id,
            text := "Hello, " ++ chat.player_name ++ "! I\x27ll help you find diamonds.",
            emotion := "helpful", duration_ms := 3000,
            directive_id := (next_directive_id s).1,
            voice_id := "en-US-Neural2-D", volume := 0.8,
            stream_id := (next_stream_id (next_directive_id s).2).1 }) },
        { message := some (.AudioChunk
          { npc_id := chat.npc_id,
            stream_id := (next_stream_id (next_directive_id s).2).1,
            pcm_data := List.replicate 960 0, sequence := 0, is_final := false,
            directive_id := (next_directive_id s).1 }) },
        { message := some (.AudioChunk
          { npc_id := chat.npc_id,
            stream_id := (next_stream_id (next_directive_id s).2).1,
            pcm_data := List.replicate 960 0, sequence := 1, is_final := false,
            directive_id := (next_directive_id s).1 }) },
        { message := some (.AudioChunk
          { npc_id := chat.npc_id,
            stream_id := (next_stream_id (next_directive_id s).2).1,
            pcm_data := List.replicate 960 0, sequence := 2, is_final := true,
            directive_id := (next_directive_id s).1 }) }],
       (next_stream_id (next_directive_id s).2).2) := rfl

/-- C9: every `ChatObservation` makes the handler emit exactly one
`SpeakDirective` followed by exactly three `AudioChunk`s with sequence numbers
0, 1, 2 in order, `is_final` true only on the last, all carrying the speak
message's `stream_id` and `directive_id` — unconditionally: the `Hello`
handshake (in particular `voice_available`) produces no output and no state
change, and the chat branch consults no handshake state. -/
theorem c9_chat_emits_speak_and_three_chunks (chat : ChatObservation) (s : Nat) :
    handle_client_message { message := some (.ChatObservation chat) } s =
      some
        ([{ message := some (.SpeakDirective
            { npc_id := chat.npc_id,
              text := "Hello, " ++ chat.player_name ++ "! I\x27ll help you find diamonds.",
              emotion := "helpful", duration_ms := 3000,
              directive_id := (next_directive_id s).1,
              voice_id := "en-US-Neural2-D", volume := 0.8,
              stream_id := (next_stream_id (next_directive_id s).2).1 }) },
          { message := some (.AudioChunk
            { npc_id := chat.npc_id,
              stream_id := (next_stream_id (next_directive_id s).2).1,
              pcm_data := List.replicate 960 0, sequence := 0, is_final := false,
              directive_id := (next_directive_id s).1 }) },
          { message := some (.AudioChunk
            { npc_id := chat.npc_id,
              stream_id := (next_stream_id (next_directive_id s).2).1,
              pcm_data := List.replicate 960 0, sequence := 1, is_final := false,
              directive_id := (next_directive_id s).1 }) },
          { message := some (.AudioChunk
            { npc_id := chat.npc_id,
              stream_id := (next_stream_id (next_directive_id s).2).1,
              pcm_data := List.replicate 960 0, sequence := 2, is_final := true,
              directive_id := (next_directive_id s).1 }) }],
         (next_stream_id (next_directive_id s).2).2) ∧
    (∀ hello : Hello,
      handle_client_message { message := some (.Hello hello) } s = some ([], s)) := by
  constructor
  · show some (chatResponse chat s) = _
    rw [chatResponse_eq]
  · intro hello
    rfl

/-- C4: whenever the chat branch dispatches a Speak directive with correlated
audio, the `SpeakDirective` sits at position 0 of the enqueued batch and every
correlated `AudioChunk` is enqueued strictly later; the outbound channel is an
ordered queue, so emission preserves this enqueue order. -/
theorem c4_speak_enqueued_before_chunks (chat : ChatObservation) (s : Nat)
    (out : List ServerMessage) (s2 : Nat)
    (h : handle_client_message { message := some (.ChatObservation chat) } s =
      some (out, s2))
    (i : Nat) (ch : AudioChunk)
    (hi : out.get? i = some { message := some (.AudioChunk ch) }) :
    ∃ spk : SpeakDirective,
      out.get? 0 = some { message := some (.SpeakDirective spk) } ∧
      ch.stream_id = spk.stream_id ∧ ch.directive_id = spk.directive_id ∧
      0 < i := by
  have hh : handle_client_message { message := some (.ChatObservation chat) } s =
      some (chatResponse chat s) := rfl
  rw [hh] at h
  injection h with h
  have hout : out = (chatResponse chat s).1 := by
    have := congrArg Prod.fst h
    exact this.symm
  subst hout
  rw [chatResponse_eq] at hi ⊢
  refine ⟨_, rfl, ?_⟩
  match i with
  | 0 => simp at hi
  | 1 =>
    simp at hi
    rw [← hi]
    exact ⟨rfl, rfl, by omega⟩
  | 2 =>
    simp at hi
    rw [← hi]
    exact ⟨rfl, rfl, by omega⟩
  | 3 =>
    simp at hi
    rw [← hi]
    exact ⟨rfl, rfl, by omega⟩
  | (n + 4) => simp at hi

/-- Witness for C4 at a concrete chat message and the first audio chunk. -/
theorem c4_speak_enqueued_before_chunks_witness :
    ∃ spk : SpeakDirective,
      (chatResponse ⟨"npc", "Steve", "hi"⟩ 1).1.get? 0 =
        some { message := some (.SpeakDirective spk) } ∧
      "stream-2" = spk.stream_id ∧ "dir-1" = spk.directive_id ∧ 0 < 1 :=
  c4_speak_enqueued_before_chunks ⟨"npc", "Steve", "hi"⟩ 1
    (chatResponse ⟨"npc", "Steve", "hi"⟩ 1).1
    (chatResponse ⟨"npc", "Steve", "hi"⟩ 1).2 rfl 1
    { npc_id := "npc", stream_id := "stream-2",
      pcm_data := List.replicate 960 0, sequence := 0, is_final := false,
      directive_id := "dir-1" } (by decide)

/-- C1: in the session dispatch model, every directive-carrying message
(`ScanBlocks`, `Move`, `BreakBlock`, `DepositToChest` action directives and
`Speak` directives) that reaches the outbound channel is preceded, in the
session's effect trace, by the registration of its directive id with the
Directive Tracker. -/
theorem c1_directive_registered_before_enqueue (msg : ClientMessage) (s : Nat)
    (fx : List Effect) (s2 : Nat) (h : sessionStep msg s = some (fx, s2))
    (i : Nat) (m : ServerMessage) (id : String)
    (hm : fx.get? i = some (.enqueue m)) (hid : directiveId? m = some id) :
    ∃ j, j < i ∧ fx.get? j = some (.register id) := by
  cases hc : handle_client_message msg s with
  | none =>
    rw [sessionStep, hc] at h
    simp at h
  | some out =>
    have hfx : fx = emitWithRegistration out.1 := by
      rw [sessionStep, hc] at h
      simp at h
      exact h.1.symm
    subst hfx
    exact emitWithRegistration_reg_before out.1 i m id hm hid

/-- Witness for C1: the chat branch's Speak directive is enqueued at index 1
of the effect trace, after its registration at index 0. -/
theorem c1_directive_registered_before_enqueue_witness :
    ∃ j, j < 1 ∧
      (emitWithRegistration (chatResponse ⟨"npc", "Steve", "hi"⟩ 1).1).get? j =
        some (.register "dir-1") :=
  c1_directive_registered_before_enqueue
    { message := some (.ChatObservation ⟨"npc", "Steve", "hi"⟩) } 1
    (emitWithRegistration (chatResponse ⟨"npc", "Steve", "hi"⟩ 1).1)
    (chatResponse ⟨"npc", "Steve", "hi"⟩ 1).2 rfl 1
    { message := some (.SpeakDirective
      { npc_id := "npc",
        text := "Hello, Steve! I\x27ll help you find diamonds.",
        emotion := "helpful", duration_ms := 3000,
        directive_id := "dir-1", voice_id := "en-US-Neural2-D",
        volume := 0.8, stream_id := "stream-2" }) } "dir-1"
    (by rfl) (by rfl)

/-- C6: resolving an `ActionResult` whose `directive_id` matches no pending
entry returns `Orphaned` and leaves the pending-directive set unchanged (and
`resolve` is a total function, so the session never crashes); resolving a
matching id returns `Matched` and removes exactly that `PendingDirective`,
keeping every other entry. -/
theorem c6_resolve_orphaned_or_matched (t : Tracker) (r : ActionResult) :
    (t.lookup r.directive_id = none →
      Tracker.resolve t r = (.Orphaned r, t)) ∧
    (∀ p, t.lookup r.directive_id = some p →
      ∃ t1 t2, t = t1 ++ (r.directive_id, p) :: t2 ∧
        (∀ e ∈ t1, e.1 ≠ r.directive_id) ∧
        Tracker.resolve t r = (.Matched p r, t1 ++ t2)) := by
  constructor
  · intro h
    simp [Tracker.resolve, h]
  · intro p h
    obtain ⟨t1, t2, heq, hne, herase⟩ :=
      tracker_lookup_split t r.directive_id p h
    refine ⟨t1, t2, heq, hne, ?_⟩
    simp [Tracker.resolve, h, herase]

/-- Witness for C6: a one-entry tracker resolving its own id. -/
theorem c6_resolve_orphaned_or_matched_witness :
    ∃ t1 t2,
      ([("dir-1", ⟨⟨"dir-1", "npc", 5, none⟩, 0⟩)] : Tracker) =
        t1 ++ ("dir-1", (⟨⟨"dir-1", "npc", 5, none⟩, 0⟩ : PendingDirective)) :: t2 ∧
      (∀ e ∈ t1, e.1 ≠ "dir-1") ∧
      Tracker.resolve [("dir-1", ⟨⟨"dir-1", "npc", 5, none⟩, 0⟩)]
          ⟨"dir-1", "npc", true, "", none⟩ =
        (.Matched ⟨⟨"dir-1", "npc", 5, none⟩, 0⟩ ⟨"dir-1", "npc", true, "", none⟩,
          t1 ++ t2) :=
  (c6_resolve_orphaned_or_matched
    [("dir-1", ⟨⟨"dir-1", "npc", 5, none⟩, 0⟩)]
    ⟨"dir-1", "npc", true, "", none⟩).2
    ⟨⟨"dir-1", "npc", 5, none⟩, 0⟩ (by decide)

/-- C10: `handle_client_message` is total — it panics on no input (every index
into the NPC list is guarded by a non-emptiness check and optional fields are
read through `Option`); moreover, when the first NPC has no position on a tick
divisible by both 100 and 50, the `ScanBlocks` directive is skipped entirely
(though its id is still consumed) while the `Move` directive substitutes the
default coordinates `(0.0, 64.0, 0.0)`. -/
theorem c10_handler_total_and_defaults :
    (∀ (msg : ClientMessage) (s : Nat),
      (handle_client_message msg s).isSome = true) ∧
    (∀ (tick : WorldTick) (npc : Npc) (rest : List Npc) (s : Nat),
      tick.npcs = npc :: rest → npc.position = none →
      tick.server_tick % 100 = 0 → tick.server_tick % 50 = 0 →
      handle_client_message { message := some (.WorldTick tick) } s =
        some ([{ message := some (.ActionDirective
          { directive_id := (next_directive_id (next_directive_id s).2).1,
            npc_id := npc.npc_id, priority := 1,
            action := some (.Move
              { target := some
                  { world := "world", x := 0, y := 64, z := 0, yaw := 0, pitch := 0 },
                speed := 0.5, pathfind := true }) }) }],
          (next_directive_id (next_directive_id s).2).2)) := by
  constructor
  · intro msg s
    obtain ⟨om⟩ := msg
    cases om with
    | none => rfl
    | some m =>
      cases m with
      | Hello h => rfl
      | ChatObservation c => rfl
      | ActionResult r => rfl
      | EventObservation e => rfl
      | VoicePcmFrame f => rfl
      | WorldTick tick =>
        obtain ⟨o1, ho1⟩ :=
          Option.isSome_iff_exists.mp (scanPhase_isSome tick s)
        obtain ⟨o2, ho2⟩ :=
          Option.isSome_iff_exists.mp (movePhase_isSome tick o1.2)
        simp [handle_client_message, ho1, ho2]
  · intro tick npc rest s hnp hpos h100 h50
    have hne : tick.npcs ≠ [] := by
      rw [hnp]
      simp
    have hscan : scanPhase tick s = some ([], (next_directive_id s).2) := by
      unfold scanPhase
      rw [if_pos ⟨h100, hne⟩, hnp, List.get?_cons_zero]
      simp [hpos]
    have hmove : movePhase tick (next_directive_id s).2 =
        some ([{ message := some (.ActionDirective
          { directive_id := (next_directive_id (next_directive_id s).2).1,
            npc_id := npc.npc_id, priority := 1,
            action := some (.Move
              { target := some
                  { world := "world", x := 0, y := 64, z := 0, yaw := 0, pitch := 0 },
                speed := 0.5, pathfind := true }) }) }],
          (next_directive_id (next_directive_id s).2).2) := by
      unfold movePhase
      rw [if_pos ⟨h50, hne⟩, hnp, List.get?_cons_zero]
      simp [hpos]
    simp [handle_client_message, hscan, hmove]

/-- Witness for C10: a position-less NPC on tick 100 yields only the default
Move directive. -/
theorem c10_handler_total_and_defaults_witness :
    handle_client_message
      { message := some (.WorldTick ⟨100, [⟨"miner", none⟩], []⟩) } 1 =
      some ([{ message := some (.ActionDirective
        { directive_id := (next_directive_id (next_directive_id 1).2).1,
          npc_id := "miner", priority := 1,
          action := some (.Move
            { target := some
                { world := "world", x := 0, y := 64, z := 0, yaw := 0, pitch := 0 },
              speed := 0.5, pathfind := true }) }) }],
        (next_directive_id (next_directive_id 1).2).2) :=
  c10_handler_total_and_defaults.2 ⟨100, [⟨"miner", none⟩], []⟩ ⟨"miner", none⟩
    [] 1 rfl rfl rfl rfl

/-- C5 counterexample: the wrapping 64-bit counter repeats after `2^64`
calls — from the initial state, call 0 and call `2^64` of the directive
generator both return the id `dir-1`, so the ids of a long enough call
sequence are not pairwise distinct. -/
theorem c5_counterexample :
    ¬ ((runCalls (List.replicate (U64SIZE + 1) IdKind.directive)
        COUNTER_INIT).1.Pairwise (fun a b => a ≠ b)) := by
  intro hp
  set l := (runCalls (List.replicate (U64SIZE + 1) IdKind.directive)
    COUNTER_INIT).1 with hl
  have h1 : COUNTER_INIT < U64SIZE := by decide
  have hlen : l.length = U64SIZE + 1 := by
    rw [hl, runCalls_fst_length, List.length_replicate]
  have hrep : ∀ n : Nat, n < U64SIZE + 1 →
      (List.replicate (U64SIZE + 1) IdKind.directive).get? n =
        some IdKind.directive := by
    intro n hn
    simp [List.get?_eq_getElem?, List.getElem?_replicate, hn]
  have e0 : (COUNTER_INIT + 0) % U64SIZE = 1 := by decide
  have eU : (COUNTER_INIT + U64SIZE) % U64SIZE = 1 := by decide
  have h0 : l.get? 0 =
      some (kindStr IdKind.directive ++ natToDecimalString 1) := by
    rw [hl, runCalls_get? _ _ h1 0, hrep 0 (by omega)]
    simp only [Option.map_some']
    rw [e0]
  have hU : l.get? U64SIZE =
      some (kindStr IdKind.directive ++ natToDecimalString 1) := by
    rw [hl, runCalls_get? _ _ h1 U64SIZE, hrep U64SIZE (by omega)]
    simp only [Option.map_some']
    rw [eU]
  have hnd : l.Nodup := hp
  have heq : l.get? 0 = l.get? U64SIZE := by
    rw [h0, hU]
  have hcontra : (0 : Nat) = U64SIZE :=
    List.get?_inj (by omega) hnd heq
  exact absurd hcontra (by decide)

/-- C5 (amended): as long as at most `2^64` identifiers are generated in the
process lifetime, the identifier strings returned by any sequence of
`next_directive_id` and `next_stream_id` calls are pairwise distinct across
both kinds; and the counter value embedded in each identifier strictly
increases for the first `2^64 - 1` calls. -/
theorem c5_bounded_monotone_distinct (ks : List IdKind)
    (hlen : ks.length ≤ U64SIZE) :
    ((runCalls ks COUNTER_INIT).1).Pairwise (fun a b => a ≠ b) ∧
    (∀ i j : Nat, i < j → j < U64SIZE - 1 →
      counterAfter COUNTER_INIT i < counterAfter COUNTER_INIT j) := by
  have h1 : COUNTER_INIT < U64SIZE := by decide
  have hU : U64SIZE = 18446744073709551616 := by norm_num [U64SIZE]
  have hC : COUNTER_INIT = 1 := rfl
  constructor
  · rw [List.pairwise_iff_get]
    intro i j hij
    have hLen : ((runCalls ks COUNTER_INIT).1).length = ks.length :=
      runCalls_fst_length ks _
    have hi : (↑i : Nat) < ks.length := by
      have := i.isLt
      omega
    have hj : (↑j : Nat) < ks.length := by
      have := j.isLt
      omega
    intro heq
    have hgi : (runCalls ks COUNTER_INIT).1.get i =
        kindStr (ks.get ⟨↑i, hi⟩) ++
          natToDecimalString ((COUNTER_INIT + ↑i) % U64SIZE) := by
      have e := List.get?_eq_get i.isLt
      rw [runCalls_get? ks COUNTER_INIT h1 ↑i, List.get?_eq_get hi] at e
      simp only [Option.map_some'] at e
      injection e with e
      exact e.symm
    have hgj : (runCalls ks COUNTER_INIT).1.get j =
        kindStr (ks.get ⟨↑j, hj⟩) ++
          natToDecimalString ((COUNTER_INIT + ↑j) % U64SIZE) := by
      have e := List.get?_eq_get j.isLt
      rw [runCalls_get? ks COUNTER_INIT h1 ↑j, List.get?_eq_get hj] at e
      simp only [Option.map_some'] at e
      injection e with e
      exact e.symm
    rw [hgi, hgj] at heq
    have hmods := mkId_inj _ _ _ _ heq
    have hij' : (↑i : Nat) < ↑j := hij
    simp only [hC, hU] at hmods hlen
    omega
  · intro i j hij hjU
    rw [counterAfter_eq COUNTER_INIT h1, counterAfter_eq COUNTER_INIT h1, hC]
    rw [Nat.mod_eq_of_lt (by omega), Nat.mod_eq_of_lt (by omega)]
    omega

/-- Witness for C5 (amended) at a two-call sequence, one of each kind. -/
theorem c5_bounded_monotone_distinct_witness :
    ([IdKind.directive, IdKind.stream].length ≤ U64SIZE) ∧
    (((runCalls [IdKind.directive, IdKind.stream] COUNTER_INIT).1).Pairwise
        (fun a b => a ≠ b) ∧
      (∀ i j : Nat, i < j → j < U64SIZE - 1 →
        counterAfter COUNTER_INIT i < counterAfter COUNTER_INIT j)) :=
  ⟨by decide,
   c5_bounded_monotone_distinct [IdKind.directive, IdKind.stream] (by decide)⟩

end NpcSociety
